import Mathlib

/-!
Verification development for the AgenticWebsite repository (React + TypeScript).

The definitions below are a shallow embedding of the core logic of
`src/App.tsx`, `src/security.tsx` and `src/fixtures.tsx`:

* the security monitor (`runSecurityChecks`, `deliverEvent`),
* the tab / context manager (`openTab`, `closeTab`, `setActiveTabId`,
  `loadFixture`, `applyLoadCompletion`),
* the workflow engine (`execStep`, `runWorkflowAux`),
* the injected document agent (`injectAgent`, `agentHandleMessage`).

JavaScript strings are modelled as Lean `String`, `Date.now()` timestamps as
`Nat`, structured JS values as the inductive `JVal`, and React state updates as
explicit state passing.  A React closure reads the state bindings of the
render it was created in: the `message` listener of `src/App.tsx` is
registered by a `useEffect` whose dependency array is `[activeTabId]`, so the
`logs` value read by the security checker it closes over stays frozen from
listener registration until the active tab changes and the listener is
re-registered — functional `setLogs` updates accumulate the log itself
correctly, but the checker's view does not refresh per event.  The embedding
carries that frozen view explicitly (`MonitorState.viewLogs`).
-/

namespace AgenticWebsite

/-- Structured JavaScript value, as carried in event payloads and command
arguments (`null`, booleans, strings, arrays, plain objects).  Object fields
keep insertion order, like JS string-keyed properties. -/
inductive JVal where
  | jnull : JVal
  | jbool : Bool → JVal
  | jstr : String → JVal
  | jarr : List JVal → JVal
  | jobj : List (String × JVal) → JVal

/-- Character-list test used to build the JS `String.prototype.includes` model:
`chHasPre pat s` is true when `pat` occurs at the very start of `s`. -/
def chHasPre : List Char → List Char → Bool
  | [], _ => true
  | _ :: _, [] => false
  | a :: as, b :: bs => a == b && chHasPre as bs

/-- Substring occurrence on character lists: `chSub pat s` is true when `pat`
occurs contiguously somewhere in `s`. -/
def chSub (pat : List Char) : List Char → Bool
  | [] => chHasPre pat []
  | c :: rest => chHasPre pat (c :: rest) || chSub pat rest

/-- Model of JS `s.includes(pat)`: substring containment. -/
def strIncludes (s pat : String) : Bool := chSub pat.data s.data

/-- Model of JS `s.startsWith(pat)`. -/
def strStartsWith (s pat : String) : Bool := chHasPre pat.data s.data

/-- Model of JS `s.toLowerCase()` for the ASCII strings this app handles. -/
def strToLower (s : String) : String := ⟨s.data.map Char.toLower⟩

/-- Replace the first occurrence of `pat` in a character list by `repl`,
modelling JS `String.prototype.replace` with a string pattern (which replaces
only the first occurrence). -/
def chReplaceFirst (pat repl : List Char) : List Char → List Char
  | [] => []
  | c :: rest =>
    if chHasPre pat (c :: rest) then repl ++ (c :: rest).drop pat.length
    else c :: chReplaceFirst pat repl rest

/-- Model of JS `s.replace(pat, repl)` for a nonempty string pattern. -/
def replaceFirst (s pat repl : String) : String :=
  ⟨chReplaceFirst pat.data repl.data s.data⟩

mutual
/-- Model of JS `String(v)` coercion for the value shapes used in this app:
strings are returned as-is, arrays join their elements with "," (with `null`
rendered empty, as `Array.prototype.join` does), plain objects render as
"[object Object]". -/
def jsToString : JVal → String
  | .jnull => "null"
  | .jbool true => "true"
  | .jbool false => "false"
  | .jstr s => s
  | .jarr l => jsJoinList l
  | .jobj _ => "[object Object]"

/-- Array elements joined with ",", with `null` entries rendered empty, as
`Array.prototype.join` does. -/
def jsJoinList : List JVal → String
  | [] => ""
  | [JVal.jnull] => ""
  | [v] => jsToString v
  | JVal.jnull :: vs => "," ++ jsJoinList vs
  | v :: vs => jsToString v ++ "," ++ jsJoinList vs
end

mutual
/-- Model of `JSON.stringify` (without escaping of special characters inside
strings, which never occurs in the values this app produces). -/
def stringifyJ : JVal → String
  | .jnull => "null"
  | .jbool true => "true"
  | .jbool false => "false"
  | .jstr s => "\"" ++ s ++ "\""
  | .jarr l => "[" ++ stringifyArr l ++ "]"
  | .jobj l => "\x7b" ++ stringifyObj l ++ "\x7d"

/-- Comma-separated rendering of a JSON array body. -/
def stringifyArr : List JVal → String
  | [] => ""
  | [v] => stringifyJ v
  | v :: vs => stringifyJ v ++ "," ++ stringifyArr vs

/-- Comma-separated rendering of a JSON object body. -/
def stringifyObj : List (String × JVal) → String
  | [] => ""
  | [kv] => "\"" ++ kv.1 ++ "\":" ++ stringifyJ kv.2
  | kv :: kvs => "\"" ++ kv.1 ++ "\":" ++ stringifyJ kv.2 ++ "," ++ stringifyObj kvs
end

/-- JS truthiness of a `JVal` (`null` and `""` and `false` are falsy). -/
def truthy : JVal → Bool
  | .jnull => false
  | .jbool b => b
  | .jstr s => !(s == "")
  | .jarr _ => true
  | .jobj _ => true

/-- Log entry, from `type LogItem = { ts: number; tabId: string; msg: string }`
in `src/App.tsx` / `src/types.tsx`. -/
structure LogItem where
  ts : Nat
  tabId : String
  msg : String
deriving DecidableEq, Repr

/-- Alert entry, from
`type AlertItem = { ts: number; tabId: string; kind: string; detail: string }`. -/
structure AlertItem where
  ts : Nat
  tabId : String
  kind : String
  detail : String
deriving DecidableEq, Repr

/-- Translation of `runSecurityChecks` from `src/security.tsx` (identical to
the inline copy in `src/App.tsx`).  It evaluates the three rules on one
inbound event and returns the `(kind, detail)` pairs passed to `raise`, in
call order.  `logs` is the log list the checker reads (`opts.getLogs()` in the
module; the in-scope `logs` binding in `App.tsx`) and `now` is `Date.now()` at
check time.  The form rules run only when the payload is a (truthy) object;
the click rule counts log entries whose age is strictly below 800 and whose
message starts with "click". -/
def runSecurityChecks (event : String) (payload : Option JVal) (now : Nat)
    (logs : List LogItem) : List (String × String) :=
  (if event == "form_submit" then
    match payload with
    | some (JVal.jobj fields) =>
      (if fields.any (fun kv => strIncludes (strToLower kv.1) "pass") then
        [("SensitiveSubmit", "Form submitted with a password field.")]
      else []) ++
      (if strIncludes (String.intercalate " " (fields.map (fun kv => jsToString kv.2))) "<script" then
        [("PotentialXSS", "User input contained \"<script\".")]
      else [])
    | _ => []
  else []) ++
  (if event == "click" then
    (if 4 ≤ (logs.filter (fun x => decide (now - x.ts < 800) && strStartsWith x.msg "click")).length then
      [("ClickStorm", "Rapid clicking detected.")]
    else [])
  else [])

/-- Monitor-side state: the event log and the alert log (both newest-first),
from the `logs` / `alerts` React state in `src/App.tsx`, together with
`viewLogs` — the `logs` value captured by the `onMsg` closure when the
`message` listener was last registered.  The registering `useEffect` has
dependency array `[activeTabId]`, so `viewLogs` refreshes only on mount or on
an active-tab change, never merely because events were delivered. -/
structure MonitorState where
  logs : List LogItem
  alerts : List AlertItem
  viewLogs : List LogItem
deriving DecidableEq, Repr

/-- Re-registration of the `message` listener (the `useEffect` re-runs when
`activeTabId` changes, and on mount): the freshly created `onMsg` closure
captures the current `logs` state as its frozen view. -/
def registerListener (st : MonitorState) : MonitorState :=
  { st with viewLogs := st.logs }

/-- Translation of the `onMsg` handler for an `agentic:event` message in
`src/App.tsx`: a log entry `"EVENT JSONPAYLOAD"` is prepended through the
functional `setLogs` update (the payload part is empty when the payload is
falsy), and `runSecurityChecks` is invoked.  The checker reads the `logs`
binding the registered closure captured when the listener was installed
(`viewLogs`) — not the accumulated log — so neither the current event's entry
nor any entry logged since registration is visible to it.  Each alert raised
is prepended to the alert log with the same timestamp; the frozen view is
unchanged by event delivery. -/
def deliverEvent (st : MonitorState) (tabId : String) (now : Nat)
    (event : String) (payload : Option JVal) : MonitorState :=
  let payloadStr :=
    match payload with
    | some p => if truthy p then stringifyJ p else ""
    | none => ""
  let entry : LogItem := { ts := now, tabId := tabId, msg := event ++ " " ++ payloadStr }
  let raised := runSecurityChecks event payload now st.viewLogs
  { st with
    logs := entry :: st.logs,
    alerts := raised.foldl
      (fun acc kd => { ts := now, tabId := tabId, kind := kd.1, detail := kd.2 } :: acc)
      st.alerts }

/-- Number of alerts of a given kind in an alert log. -/
def countKind (k : String) (alerts : List AlertItem) : Nat :=
  (alerts.filter (fun a => a.kind == k)).length

/-- Payload of a user `click` event as emitted by the injected agent
(`send('click', { tag, id, text })`). -/
def clickPayload : JVal :=
  .jobj [("tag", .jstr "BUTTON"), ("id", .jstr "b1"), ("text", .jstr "Go")]

/-- State of the monitor after an uninterrupted burst of `n` user clicks on
the same tab, all delivered with the same timestamp `t` (hence all inside one
800ms window), starting from state `st` with no intervening listener
re-registration (no active-tab change during the burst). -/
def clickBurstFrom (st : MonitorState) (tabId : String) (t : Nat) : Nat → MonitorState
  | 0 => st
  | n + 1 => deliverEvent (clickBurstFrom st tabId t n) tabId t "click" (some clickPayload)

/-- An uninterrupted burst of `n` clicks right after mount: the listener was
registered with the empty log as its frozen view, and no tab change occurs
during the burst. -/
def clickBurst (tabId : String) (t : Nat) (n : Nat) : MonitorState :=
  clickBurstFrom (registerListener { logs := [], alerts := [], viewLogs := [] }) tabId t n

/-- The quantity the ClickStorm rule computes over a log list: the number of
entries strictly younger than 800ms whose message starts with "click". -/
def recentClickCount (logs : List LogItem) (now : Nat) : Nat :=
  (logs.filter (fun x => decide (now - x.ts < 800) && strStartsWith x.msg "click")).length

/-- Fixture keys, from `type FixtureKey = 'login' | 'search' | 'form'`. -/
inductive FixtureKey where
  | login
  | search
  | form
deriving DecidableEq, Repr

/-- String name of a fixture key (used for the tab title, which the code sets
to `key`). -/
def fixtureName : FixtureKey → String
  | .login => "login"
  | .search => "search"
  | .form => "form"

/-- Browser tab / document context, from
`type Tab = { id: string; fixture: FixtureKey; title: string; srcDoc?: string }`. -/
structure Tab where
  id : String
  fixture : FixtureKey
  title : String
  srcDoc : Option String
deriving DecidableEq, Repr

/-- Context-manager state: the open tabs and the active tab id, from the
`tabs` / `activeTabId` React state in `src/App.tsx`.  `activeTabId` is a plain
string in the code (`useState(tabs[0].id)`); it is never `undefined`. -/
structure BrowserState where
  tabs : List Tab
  activeTabId : String
deriving DecidableEq, Repr

/-- Initial state: one `login` tab (freshly allocated id) which is active,
with no rendered content yet. -/
def initialState (id0 : String) : BrowserState :=
  { tabs := [{ id := id0, fixture := .login, title := "login", srcDoc := none }],
    activeTabId := id0 }

/-- Tab ids of the currently open tabs. -/
def tabIds (st : BrowserState) : List String := st.tabs.map (·.id)

/-- The `setActiveTabId` state setter from `src/App.tsx` (line 16), as invoked
directly by the tab-pill click handlers: it unconditionally replaces the
active tab id, with no membership check. -/
def setActiveTabId (st : BrowserState) (id : String) : BrowserState :=
  { st with activeTabId := id }

/-- Translation of `openTab` from `src/App.tsx`: append a fresh tab and make
it active (the asynchronous `loadFixture` it also triggers delivers content
later via `applyLoadCompletion`). -/
def openTab (st : BrowserState) (newId : String) (fixture : FixtureKey) : BrowserState :=
  { tabs := st.tabs ++ [{ id := newId, fixture := fixture, title := fixtureName fixture, srcDoc := none }],
    activeTabId := newId }

/-- Translation of `closeTab` from `src/App.tsx`: the tab is filtered out of
the list; if the closed tab was active and more than one tab was open, the
first remaining tab (by the pre-close list) becomes active.  The code performs
both the length test and the `find` on the pre-close `tabs` binding, which the
embedding preserves.  The `none` branch of the `find` is unreachable when tab
ids are distinct (in the code it would dereference `undefined`). -/
def closeTab (st : BrowserState) (id : String) : BrowserState :=
  let tabs' := st.tabs.filter (fun t => t.id != id)
  if st.activeTabId = id ∧ 1 < st.tabs.length then
    match st.tabs.find? (fun t => t.id != id) with
    | some next => { tabs := tabs', activeTabId := next.id }
    | none => { tabs := tabs', activeTabId := st.activeTabId }
  else
    { tabs := tabs', activeTabId := st.activeTabId }

/-- A context-manager operation of the kind quantified over by the spec:
open a tab (fresh id supplied by the environment) or close a tab. -/
inductive TabOp where
  | openT (id : String) (fixture : FixtureKey)
  | closeT (id : String)

/-- Apply one open/close operation. -/
def applyOp (st : BrowserState) : TabOp → BrowserState
  | .openT id fixture => openTab st id fixture
  | .closeT id => closeTab st id

/-- Apply a finite sequence of open/close operations, left to right. -/
def applyOps (st : BrowserState) (ops : List TabOp) : BrowserState :=
  ops.foldl applyOp st

/-- The agent script injected into every fixture document, verbatim from
`const AGENT` in `src/fixtures.tsx` (braces and apostrophes appear as hex
escapes). -/
def AGENT : String :=
  "\n  (function()\x7b\n    function send(event, payload)\x7b\n      try \x7b parent.postMessage(\x7b type:\x27agentic:event\x27, event, payload \x7d, \x27*\x27); \x7d catch \x7b\x7d\n    \x7d\n    function announceReady()\x7b send(\x27ready\x27); \x7d\n    if (document.readyState === \x27loading\x27) \x7b\n      document.addEventListener(\x27DOMContentLoaded\x27, () => setTimeout(announceReady, 0), \x7b once: true \x7d);\n    \x7d else \x7b\n      setTimeout(announceReady, 0);\n    \x7d\n    window.addEventListener(\x27load\x27, () => setTimeout(announceReady, 0), \x7b once: true \x7d);\n    setTimeout(announceReady, 200);\n\n    document.addEventListener(\x27click\x27, (e) => \x7b\n      const t = e.target;\n      send(\x27click\x27, \x7b tag: t?.tagName, id: t?.id || \x27\x27, text: (t?.innerText || \x27\x27).slice(0,60) \x7d);\n    \x7d, true);\n\n    document.addEventListener(\x27submit\x27, (e) => \x7b\n      const f = e.target; const fd = new FormData(f); const obj = \x7b\x7d;\n      fd.forEach((v,k) => obj[k] = String(v));\n      send(\x27form_submit\x27, obj);\n    \x7d, true);\n\n    window.addEventListener(\x27message\x27, (ev) => \x7b\n      const msg = ev.data || \x7b\x7d;\n      if (msg.type !== \x27agentic:command\x27) return;\n      const \x7b command, args \x7d = msg;\n      send(\x27command_received\x27, \x7b command, args \x7d);\n\n      if (command === \x27ping\x27) \x7b send(\x27pong\x27, \x7b\x7d); return; \x7d\n\n      if (command === \x27fill\x27) \x7b\n        try \x7b\n          Object.entries(args || \x7b\x7d).forEach(([sel, val]) => \x7b\n            const el = document.querySelector(sel);\n            if (el && \x27value\x27 in el) \x7b el.value = String(val); el.dispatchEvent(new Event(\x27input\x27, \x7b bubbles: true \x7d)); \x7d\n          \x7d);\n          send(\x27autofilled\x27, \x7b fields: Object.keys(args || \x7b\x7d) \x7d);\n        \x7d catch (e) \x7b send(\x27error\x27, \x7b what:\x27fill\x27, message:String(e) \x7d); \x7d\n      \x7d\n\n      if (command === \x27click\x27) \x7b\n        try \x7b\n          const el = document.querySelector(args?.selector);\n          if (el && el instanceof HTMLElement) \x7b el.click(); send(\x27clicked\x27, \x7b selector: args.selector \x7d); \x7d\n          else \x7b send(\x27error\x27, \x7b what:\x27click\x27, message:\x27selector not found\x27 \x7d); \x7d\n        \x7d catch (e) \x7b send(\x27error\x27, \x7b what:\x27click\x27, message:String(e) \x7d); \x7d\n      \x7d\n\n      if (command === \x27assertText\x27) \x7b\n        try \x7b\n          const el = document.querySelector(args?.selector);\n          const ok = !!el && (el.textContent || \x27\x27).includes(args?.includes || \x27\x27);\n          if (ev.ports && ev.ports[0]) \x7b ev.ports[0].postMessage(\x7b ok \x7d); \x7d\n          send(\x27assert_result\x27, \x7b selector: args?.selector, includes: args?.includes, ok \x7d);\n        \x7d catch (e) \x7b send(\x27error\x27, \x7b what:\x27assertText\x27, message:String(e) \x7d); \x7d\n      \x7d\n    \x7d);\n  \x7d)();"

/-- Translation of `injectAgent` from `src/fixtures.tsx`: insert the agent
script before `</body>` when present (replacing the first occurrence, as JS
`String.replace` with a string pattern does), otherwise append it. -/
def injectAgent (rawHtml : String) : String :=
  if strIncludes rawHtml "</body>" then
    replaceFirst rawHtml "</body>" ("<script>" ++ AGENT ++ "</script></body>")
  else
    rawHtml ++ "<script>" ++ AGENT ++ "</script>"

/-- A fixture-load completion: the moment the `fetch`/`text` of a
`loadFixture(tab, key)` call resolves and its `setTabs` update runs.  `ctxId`
is the id of the tab passed to `loadFixture`, `raw` the fetched markup. -/
structure LoadCompletion where
  ctxId : String
  key : FixtureKey
  raw : String

/-- The `setTabs` update performed when a fixture load completes
(`src/App.tsx` line 41): the matching tab gets the new fixture key, title and
instrumented content, in place, with no sequence-number guard; every other tab
is untouched. -/
def applyLoadCompletion (st : BrowserState) (c : LoadCompletion) : BrowserState :=
  { st with
    tabs := st.tabs.map (fun t =>
      if t.id == c.ctxId then
        { t with fixture := c.key, title := fixtureName c.key, srcDoc := some (injectAgent c.raw) }
      else t) }

/-- Translation of the async `loadFixture` from `src/App.tsx`: `await` the
fetched markup (the fetch is the fallible external collaborator, modelled as
an `Except` already containing the response text), instrument it and update
the tab in place.  There is no `try`/`catch`, so a fetch failure propagates as
the rejection of the whole call before `setTabs` runs. -/
def loadFixture (st : BrowserState) (tab : Tab) (key : FixtureKey)
    (fetchResult : Except String String) : Except String BrowserState := do
  let raw ← fetchResult
  let instrumented := injectAgent raw
  .ok { st with
        tabs := st.tabs.map (fun t =>
          if t.id == tab.id then
            { t with fixture := key, title := fixtureName key, srcDoc := some instrumented }
          else t) }

/-- Caller-visible effect of one `loadFixture` call: on success the new state,
on rejection the unchanged prior state together with the propagated error. -/
def loadFixtureApply (st : BrowserState) (tab : Tab) (key : FixtureKey)
    (fetchResult : Except String String) : BrowserState × Option String :=
  match loadFixture st tab key fetchResult with
  | .ok st' => (st', none)
  | .error e => (st, some e)

/-- The tab with the given id, if open (`tabs.find(t => t.id === i)`). -/
def getTab (st : BrowserState) (i : String) : Option Tab :=
  st.tabs.find? (fun t => t.id == i)

lemma countKind_cons (k : String) (a : AlertItem) (l : List AlertItem) :
    countKind k (a :: l) = (if a.kind == k then 1 else 0) + countKind k l := by
  simp only [countKind, List.filter_cons]
  split
  · simp [Nat.add_comm]
  · simp

lemma runSecurityChecks_click (payload : Option JVal) (now : Nat) (logs : List LogItem) :
    runSecurityChecks "click" payload now logs =
      if 4 ≤ recentClickCount logs now then [("ClickStorm", "Rapid clicking detected.")]
      else [] := by
  simp only [runSecurityChecks, recentClickCount,
    show (("click" == "form_submit") = true) = False by simp,
    show (("click" == "click") = true) = True by simp]
  simp

lemma clickBurstFrom_view (st : MonitorState) (tabId : String) (t n : Nat) :
    (clickBurstFrom st tabId t n).viewLogs = st.viewLogs := by
  induction n with
  | zero => rfl
  | succ n ih => simp [clickBurstFrom, deliverEvent, ih]

/-- Claim C1 (amended): the ClickStorm rule counts click-tagged log entries,
strictly within the trailing 800ms, in the log view that the `message`
listener's closure captured when it was last registered (on mount or on an
active-tab change); events delivered since registration — the current click
included — are invisible to it, because the registering `useEffect` depends
only on `activeTabId`.  Each click of an uninterrupted burst is therefore
checked against the same frozen view: when that view already held at least 4
click entries inside the window, every click of the burst raises one alert,
and otherwise — in particular for a burst of any length delivered after a
registration with a click-free window — no click raises any. -/
theorem clickStorm_frozen_listener_burst (st : MonitorState) (tabId : String) (t n : Nat) :
    countKind "ClickStorm" (clickBurstFrom st tabId t n).alerts =
      (if 4 ≤ recentClickCount st.viewLogs t then n else 0) +
        countKind "ClickStorm" st.alerts := by
  induction n with
  | zero => simp [clickBurstFrom]
  | succ n ih =>
    show countKind "ClickStorm"
        (deliverEvent (clickBurstFrom st tabId t n) tabId t "click" (some clickPayload)).alerts = _
    simp only [deliverEvent, clickBurstFrom_view, runSecurityChecks_click]
    by_cases h4 : 4 ≤ recentClickCount st.viewLogs t
    · rw [if_pos h4]
      simp only [List.foldl, countKind_cons, ih, if_pos h4]
      have hbeq : (("ClickStorm" : String) == "ClickStorm") = true := by decide
      rw [hbeq]
      simp
      omega
    · rw [if_neg h4]
      simp only [List.foldl, ih, if_neg h4]

/-- Claim C1 counterexample: four clicks delivered inside one 800ms window
(here: all at timestamp 1000, right after the listener was registered over an
empty log, with no tab change in between) raise no `ClickStorm` alert at all,
whereas the claim requires an alert on the 4th click.  The checker reads the
log view frozen at listener registration, which holds no click entries, on
every click of the burst. -/
theorem clickStorm_four_clicks_no_alert :
    countKind "ClickStorm" (clickBurst "tab1" 1000 4).alerts = 0 := by decide

/-- Claim C4 (amended): on a `form_submit` event with an object payload,
`SensitiveSubmit` is raised iff some field name lowercased contains "pass",
and `PotentialXSS` is raised iff the field values joined with a single space
separator (`Object.values(payload).map(String).join(' ')`, not their direct
concatenation) contain "<script"; the rules are independent (both can fire)
and nothing but these two alerts can be raised by such an event. -/
theorem formSubmit_rules_characterization (fields : List (String × JVal))
    (now : Nat) (logs : List LogItem) :
    ((("SensitiveSubmit", "Form submitted with a password field.") ∈
        runSecurityChecks "form_submit" (some (JVal.jobj fields)) now logs) ↔
      fields.any (fun kv => strIncludes (strToLower kv.1) "pass") = true) ∧
    ((("PotentialXSS", "User input contained \"<script\".") ∈
        runSecurityChecks "form_submit" (some (JVal.jobj fields)) now logs) ↔
      strIncludes (String.intercalate " " (fields.map (fun kv => jsToString kv.2))) "<script" = true) ∧
    (∀ kd ∈ runSecurityChecks "form_submit" (some (JVal.jobj fields)) now logs,
      kd.1 = "SensitiveSubmit" ∨ kd.1 = "PotentialXSS") := by
  cases hS : fields.any (fun kv => strIncludes (strToLower kv.1) "pass") <;>
    cases hX : strIncludes (String.intercalate " " (fields.map (fun kv => jsToString kv.2))) "<script" <;>
      simp [runSecurityChecks, hS, hX,
        show (("form_submit" == "form_submit") = true) = True by simp,
        show (("form_submit" == "click") = true) = False by simp]

/-- Claim C4 counterexample: a `form_submit` payload with field values
`"<scr"` and `"ipt>"` raises no alert — the code joins the values with a
space (`"<scr ipt>"`), which does not contain `"<script"` — although the
direct concatenation of the values (`"<script>"`) does contain `"<script"`,
so the claim as stated requires a `PotentialXSS` alert here. -/
theorem potentialXSS_split_value_not_raised :
    (runSecurityChecks "form_submit"
        (some (JVal.jobj [("a", .jstr "<scr"), ("b", .jstr "ipt>")])) 0 []) = [] ∧
    strIncludes ("<scr" ++ "ipt>") "<script" = true := by decide

lemma applyOp_active_member (st : BrowserState) (op : TabOp)
    (h : st.tabs ≠ [] → st.activeTabId ∈ tabIds st) :
    (applyOp st op).tabs ≠ [] → (applyOp st op).activeTabId ∈ tabIds (applyOp st op) := by
  cases op with
  | openT id fixture =>
    intro _
    simp [applyOp, openTab, tabIds]
  | closeT id =>
    simp only [applyOp, closeTab]
    split
    case isTrue hcond =>
      cases hfind : st.tabs.find? (fun t => t.id != id) with
      | some next =>
        intro _
        have hpred : (next.id != id) = true := by simpa using List.find?_some hfind
        have hmem : next ∈ st.tabs := List.mem_of_find?_eq_some hfind
        show next.id ∈ tabIds { tabs := st.tabs.filter (fun t => t.id != id), activeTabId := next.id }
        simp only [tabIds, List.mem_map]
        exact ⟨next, List.mem_filter.mpr ⟨hmem, hpred⟩, rfl⟩
      | none =>
        intro hne
        exact absurd (List.filter_eq_nil_iff.mpr (List.find?_eq_none.mp hfind)) hne
    case isFalse hcond =>
      intro hne
      have hne0 : st.tabs ≠ [] := by
        intro h0
        exact hne (by simp [h0])
      obtain ⟨t, ht_mem, ht_id⟩ := List.mem_map.mp (h hne0)
      by_cases hid : st.activeTabId = id
      · exfalso
        have hlen : ¬ 1 < st.tabs.length := fun hl => hcond ⟨hid, hl⟩
        cases hts : st.tabs with
        | nil => exact hne0 hts
        | cons a l =>
          have hl0 : l = [] := by
            rw [hts] at hlen
            simpa using hlen
          subst hl0
          rw [hts] at ht_mem
          have hta : t = a := by simpa using ht_mem
          apply hne
          rw [hts]
          simp [List.filter_cons, ← hta, ht_id, hid]
      · simp only [tabIds, List.mem_map]
        refine ⟨t, List.mem_filter.mpr ⟨ht_mem, ?_⟩, ht_id⟩
        simp [ht_id, hid]

lemma applyOps_active_member (ops : List TabOp) : ∀ st : BrowserState,
    (st.tabs ≠ [] → st.activeTabId ∈ tabIds st) →
    ((applyOps st ops).tabs ≠ [] → (applyOps st ops).activeTabId ∈ tabIds (applyOps st ops)) := by
  induction ops with
  | nil => exact fun st h => h
  | cons op rest ih => exact fun st h => ih (applyOp st op) (applyOp_active_member st op h)

/-- Claim C2 (amended): for every finite sequence of open/close operations
from the initial state, whenever the context set is nonempty the active id is
the id of a member.  When the last context is closed, however, the set becomes
empty while `activeTabId` (a plain string in the code) silently retains the
closed context's id — it is never reset to an undefined state. -/
theorem activeTab_member_of_nonempty (id0 : String) (ops : List TabOp)
    (hne : (applyOps (initialState id0) ops).tabs ≠ []) :
    (applyOps (initialState id0) ops).activeTabId ∈ tabIds (applyOps (initialState id0) ops) :=
  applyOps_active_member ops (initialState id0)
    (fun _ => by simp [initialState, tabIds]) hne

/-- Claim C2 witness instantiation: open a second tab "t1" then close "t0";
the resulting set is nonempty and the active id belongs to it. -/
theorem activeTab_member_of_nonempty_witness :
    (applyOps (initialState "t0") [TabOp.openT "t1" .search, TabOp.closeT "t0"]).tabs ≠ [] ∧
    (applyOps (initialState "t0") [TabOp.openT "t1" .search, TabOp.closeT "t0"]).activeTabId ∈
      tabIds (applyOps (initialState "t0") [TabOp.openT "t1" .search, TabOp.closeT "t0"]) :=
  ⟨by decide, activeTab_member_of_nonempty "t0" [TabOp.openT "t1" .search, TabOp.closeT "t0"] (by decide)⟩

/-- Claim C2 counterexample: closing the only open context ("t0") empties the
set, yet the active id still holds "t0" — `closeTab` only reassigns the
active id when other tabs remain, and nothing ever clears it, so the claim's
"undefined when the context set is empty" fails. -/
theorem closeLast_retains_active_id :
    (applyOps (initialState "t0") [TabOp.closeT "t0"]).tabs = [] ∧
    (applyOps (initialState "t0") [TabOp.closeT "t0"]).activeTabId = "t0" := by decide

lemma getTab_applyLoadCompletion (st : BrowserState) (c : LoadCompletion) (i : String) :
    getTab (applyLoadCompletion st c) i =
      (getTab st i).map (fun t => if t.id == c.ctxId then
        { t with fixture := c.key, title := fixtureName c.key, srcDoc := some (injectAgent c.raw) }
      else t) := by
  simp only [getTab, applyLoadCompletion]
  have hpf : ((fun t : Tab => t.id == i) ∘ (fun t : Tab =>
      if t.id == c.ctxId then
        { t with fixture := c.key, title := fixtureName c.key, srcDoc := some (injectAgent c.raw) }
      else t)) = (fun t : Tab => t.id == i) := by
    funext t
    by_cases h : (t.id == c.ctxId) = true <;> simp [Function.comp, h]
  rw [List.find?_map, hpf]

/-- Claim C3 (amended): `loadFixture` completions carry no sequence tag; each
one overwrites the tab's fixture, title and rendered content unconditionally,
so when two loads race, the context ends up showing the content of whichever
fetch completed last.  Here completion Y is applied first and the stale
completion X last: the final content is X's instrumented markup, not Y's. -/
theorem load_last_completion_wins (st : BrowserState) (i : String)
    (kX kY : FixtureKey) (rX rY : String) (t : Tab) (h : getTab st i = some t) :
    getTab (applyLoadCompletion (applyLoadCompletion st ⟨i, kY, rY⟩) ⟨i, kX, rX⟩) i =
      some { t with fixture := kX, title := fixtureName kX, srcDoc := some (injectAgent rX) } := by
  have hfind : List.find? (fun t => t.id == i) st.tabs = some t := by
    simpa only [getTab] using h
  have hid : t.id = i := by simpa using List.find?_some hfind
  rw [getTab_applyLoadCompletion, getTab_applyLoadCompletion, h]
  simp [hid]

/-- Claim C3 witness instantiation: on the initial state, completion for
fixture `form` lands first, the stale completion for `search` (raw "X")
lands last; the tab ends with `search`'s instrumentation. -/
theorem load_last_completion_wins_witness :
    getTab (applyLoadCompletion (applyLoadCompletion (initialState "t0") ⟨"t0", .form, "YY"⟩)
        ⟨"t0", .search, "X"⟩) "t0" =
      some { id := "t0", fixture := .search, title := "search", srcDoc := some (injectAgent "X") } :=
  load_last_completion_wins (initialState "t0") "t0" .search .form "X" "YY"
    { id := "t0", fixture := .login, title := "login", srcDoc := none } rfl

/-- Claim C3 counterexample: fixture X (raw "X") is requested first and
fixture Y (raw "YY") second on context "t0"; Y's fetch completes first and
X's slower, stale fetch completes last.  The context is left showing X's
instrumented content, which differs from Y's — the claim's requirement that
the later-requested Y win is violated (there is no sequence tagging). -/
theorem stale_completion_overwrites :
    (getTab (applyLoadCompletion (applyLoadCompletion (initialState "t0") ⟨"t0", .form, "YY"⟩)
        ⟨"t0", .search, "X"⟩) "t0").map (fun t => t.srcDoc) = some (some (injectAgent "X")) ∧
    injectAgent "X" ≠ injectAgent "YY" := by
  constructor
  · rfl
  · intro h
    have e1 : injectAgent "X" = (("X" ++ "<script>") ++ AGENT) ++ "</script>" := rfl
    have e2 : injectAgent "YY" = (("YY" ++ "<script>") ++ AGENT) ++ "</script>" := rfl
    have h1 : (injectAgent "X").length = (injectAgent "YY").length := by rw [h]
    rw [e1, e2] at h1
    simp only [String.length_append] at h1
    have hx : ("X" : String).length = 1 := rfl
    have hy : ("YY" : String).length = 2 := rfl
    omega

/-- Claim C8 (confirmed): `loadFixture` has no `try`/`catch`, so when the
fixture fetch fails the rejection propagates to the caller as the error
result of the whole call, and `setTabs` is never reached: the caller-visible
state — including the affected context's rendered content, fixture key and
title — is exactly the prior state. -/
theorem loadFixture_fetch_failure (st : BrowserState) (tab : Tab)
    (key : FixtureKey) (e : String) :
    loadFixture st tab key (Except.error e) = Except.error e ∧
    loadFixtureApply st tab key (Except.error e) = (st, some e) :=
  ⟨rfl, rfl⟩

/-- Claim C9 (amended): `setActiveTabId` is the raw React state setter — it
never raises (it is a total update), but with an id that is not a member of
the tab set it is not a no-op: it unconditionally replaces the active id,
leaving a dangling reference, while the tab list is untouched. -/
theorem setActiveTabId_nonmember (st : BrowserState) (id : String)
    (_h : id ∉ tabIds st) :
    (setActiveTabId st id).activeTabId = id ∧ (setActiveTabId st id).tabs = st.tabs :=
  ⟨rfl, rfl⟩

/-- Claim C9 witness instantiation: setting the non-member id "zz" on the
initial state. -/
theorem setActiveTabId_nonmember_witness :
    ("zz" ∉ tabIds (initialState "t0")) ∧
    ((setActiveTabId (initialState "t0") "zz").activeTabId = "zz" ∧
      (setActiveTabId (initialState "t0") "zz").tabs = (initialState "t0").tabs) :=
  ⟨by decide, setActiveTabId_nonmember (initialState "t0") "zz" (by decide)⟩

/-- Claim C9 counterexample: with only tab "t0" open, invoking
`setActiveTabId` with the nonexistent id "zz" changes the active id from
"t0" to "zz" — the claim's "leaves the active context id unchanged" fails. -/
theorem setActiveTabId_nonmember_changes_active :
    ("zz" ∉ tabIds (initialState "t0")) ∧
    (setActiveTabId (initialState "t0") "zz").activeTabId = "zz" ∧
    (setActiveTabId (initialState "t0") "zz").activeTabId ≠ (initialState "t0").activeTabId := by
  decide

/-- DOM element as seen by the injected agent: its selector, text content,
current `value`, whether it has a `value` property (`'value' in el`), and
whether it is an `HTMLElement` (checked by the `click` command handler). -/
structure DomElement where
  sel : String
  textContent : String
  value : String
  hasValue : Bool
  isHtml : Bool
deriving DecidableEq, Repr

/-- Document contents of a context, as a list of elements in document order. -/
abbrev Doc := List DomElement

/-- Model of `document.querySelector(selector)`: the first element matching
the selector. -/
def querySelector (doc : Doc) (selector : String) : Option DomElement :=
  doc.find? (fun el => el.sel == selector)

/-- Message posted into a document context
(`{ type: 'agentic:command', command, args }`). -/
structure AgentMsg where
  type : String
  command : String
  args : JVal

/-- Event emitted by the agent (`parent.postMessage({ type:'agentic:event',
event, payload })`); `payload` is `none` when `send` is called without one. -/
structure AgentEvent where
  event : String
  payload : Option JVal

/-- Model of `Object.entries(args || {})` for the object values the controller
sends (non-objects yield no entries). -/
def objEntries : JVal → List (String × JVal)
  | .jobj fs => fs
  | _ => []

/-- Field of an object argument read with optional chaining (`args?.k`),
when it is a string. -/
def objGetStr (v : JVal) (k : String) : Option String :=
  match v with
  | .jobj fs =>
    match (fs.find? (fun kv => kv.1 == k)).map (fun kv => kv.2) with
    | some (JVal.jstr s) => some s
    | _ => none
  | _ => none

/-- The `fill` handler's per-field update: `document.querySelector(sel)` (the
first match) gets its `value` set when it has one. -/
def setFieldValue (selector val : String) : Doc → Doc
  | [] => []
  | el :: rest =>
    if el.sel == selector then
      (if el.hasValue then { el with value := val } else el) :: rest
    else el :: setFieldValue selector val rest

/-- Apply a `fill` command's field map to the document
(`Object.entries(args || {}).forEach(...)`, values coerced with `String`). -/
def fillFields (doc : Doc) (fields : List (String × JVal)) : Doc :=
  fields.foldl (fun d kv => setFieldValue kv.1 (jsToString kv.2) d) doc

/-- Command-specific part of the agent's message handler from
`src/fixtures.tsx` (everything after the `command_received` echo): the events
sent (in order), the updated document, and the value posted on the reply port
if any.  An unrecognized command matches no branch and produces nothing. -/
def agentCommandEvents (doc : Doc) (command : String) (args : JVal)
    (hasReplyPort : Bool) : List AgentEvent × Doc × Option Bool :=
  if command == "ping" then ([⟨"pong", some (.jobj [])⟩], doc, none)
  else if command == "fill" then
    let entries := objEntries args
    ([⟨"autofilled", some (.jobj [("fields", .jarr (entries.map (fun kv => .jstr kv.1)))])⟩],
      fillFields doc entries, none)
  else if command == "click" then
    match objGetStr args "selector" with
    | some sel =>
      match querySelector doc sel with
      | some el =>
        if el.isHtml then
          ([⟨"clicked", some (.jobj [("selector", .jstr sel)])⟩], doc, none)
        else
          ([⟨"error", some (.jobj [("what", .jstr "click"), ("message", .jstr "selector not found")])⟩],
            doc, none)
      | none =>
        ([⟨"error", some (.jobj [("what", .jstr "click"), ("message", .jstr "selector not found")])⟩],
          doc, none)
    | none =>
      ([⟨"error", some (.jobj [("what", .jstr "click"), ("message", .jstr "selector not found")])⟩],
        doc, none)
  else if command == "assertText" then
    let sel := (objGetStr args "selector").getD "undefined"
    let inc := (objGetStr args "includes").getD ""
    let ok :=
      match querySelector doc sel with
      | none => false
      | some el => strIncludes el.textContent inc
    ([⟨"assert_result", some (.jobj [("selector", .jstr sel), ("includes", .jstr inc), ("ok", .jbool ok)])⟩],
      doc, if hasReplyPort then some ok else none)
  else ([], doc, none)

/-- The agent's `message` listener from `src/fixtures.tsx`: messages without
the `agentic:command` discriminator are ignored; every command message is
first acknowledged with a `command_received` event echoing the command name
and args, then handled per command. -/
def agentHandleMessage (doc : Doc) (msg : AgentMsg) (hasReplyPort : Bool) :
    List AgentEvent × Doc × Option Bool :=
  if msg.type != "agentic:command" then ([], doc, none)
  else
    let r := agentCommandEvents doc msg.command msg.args hasReplyPort
    (⟨"command_received", some (.jobj [("command", .jstr msg.command), ("args", msg.args)])⟩ :: r.1,
      r.2.1, r.2.2)

/-- The assertText reply timeout from `src/App.tsx`
(`setTimeout(() => resolve(false), 800)`). -/
def assertTimeoutMs : Nat := 800

/-- Resolution of the controller's `assertText` promise: the boolean posted on
the reply port if it arrives, otherwise (timeout) false.  The promise only
ever resolves — it is never rejected. -/
def assertTextResolve (reply : Option Bool) : Bool :=
  match reply with
  | some b => b
  | none => false

/-- Command message posted by the `assertText` helper. -/
def assertMsg (selector includes : String) : AgentMsg :=
  ⟨"agentic:command", "assertText", .jobj [("selector", .jstr selector), ("includes", .jstr includes)]⟩

/-- Command message posted for a `fill` step. -/
def fillMsg (fields : List (String × String)) : AgentMsg :=
  ⟨"agentic:command", "fill", .jobj (fields.map (fun kv => (kv.1, JVal.jstr kv.2)))⟩

/-- Command message posted for a `click` step. -/
def clickMsg (selector : String) : AgentMsg :=
  ⟨"agentic:command", "click", .jobj [("selector", .jstr selector)]⟩

/-- Workflow step, from the `Step` union in `src/App.tsx`. -/
inductive Step where
  | navigate (fixture : FixtureKey)
  | fill (fields : List (String × String))
  | click (selector : String)
  | assertText (selector includes : String)
deriving DecidableEq, Repr

/-- Whether a step is an `assertText` step. -/
def isAssertStep : Step → Bool
  | .assertText _ _ => true
  | _ => false

/-- Run-time environment of a workflow run: the markup each successful fixture
fetch returns, and the resolved outcome of each assertion (reply-port answer
or timeout, always a boolean). -/
structure WorkflowEnv where
  fetchRaw : FixtureKey → String
  assertOk : String → String → Bool

/-- Observable state of a workflow run: the browser state, the log, the
commands delivered so far as (target context id, message) pairs — the target
is the context currently shown in the single iframe, i.e. the active tab —
and the trace of executed steps in order. -/
structure WfState where
  browser : BrowserState
  logs : List LogItem
  delivered : List (String × AgentMsg)
  trace : List Step

/-- One iteration of the `for (const step of steps)` loop in `runWorkflow`
(`src/App.tsx`), against the `tab` captured when the run started:
`navigate` awaits `loadFixture(tab, ...)` (then `waitForIframeReady`, which
always resolves — ready event, load event, or the 2500ms hard stop — without
touching state); `fill`/`click` post their command to the iframe, which hosts
the *currently active* tab, then `delay()`; `assertText` posts its command the
same way, awaits the resolved boolean and appends a pass/fail log record
tagged with the captured tab's id, regardless of the outcome. -/
def execStep (env : WorkflowEnv) (captured : Tab) (now : Nat) (st : WfState) : Step → WfState
  | .navigate fixture =>
    { st with
      browser := applyLoadCompletion st.browser ⟨captured.id, fixture, env.fetchRaw fixture⟩,
      trace := st.trace ++ [.navigate fixture] }
  | .fill fields =>
    { st with
      delivered := st.delivered ++ [(st.browser.activeTabId, fillMsg fields)],
      trace := st.trace ++ [.fill fields] }
  | .click selector =>
    { st with
      delivered := st.delivered ++ [(st.browser.activeTabId, clickMsg selector)],
      trace := st.trace ++ [.click selector] }
  | .assertText selector includes =>
    { st with
      delivered := st.delivered ++ [(st.browser.activeTabId, assertMsg selector includes)],
      logs := { ts := now, tabId := captured.id,
                msg := if env.assertOk selector includes then
                         "assert OK: \"" ++ includes ++ "\""
                       else "assert FAILED: \"" ++ includes ++ "\"" } :: st.logs,
      trace := st.trace ++ [.assertText selector includes] }

/-- A possible user action between two steps: `some id` models the user
clicking the tab pill for `id` (a bare `setActiveTabId`), `none` no action. -/
def applySwitch (st : WfState) (sw : Option (Option String)) : WfState :=
  match sw with
  | some (some id) => { st with browser := setActiveTabId st.browser id }
  | _ => st

/-- The `runWorkflow` loop interleaved with a schedule of user tab switches:
before each step the scheduled switch (if any) is applied, then the step
executes. -/
def runWorkflowAux (env : WorkflowEnv) (captured : Tab) (now : Nat) :
    List Step → List (Option String) → WfState → WfState
  | [], _, st => st
  | s :: rest, switches, st =>
    runWorkflowAux env captured now rest switches.tail
      (execStep env captured now (applySwitch st switches.head?) s)

lemma applySwitch_trace (st : WfState) (sw : Option (Option String)) :
    (applySwitch st sw).trace = st.trace := by
  cases sw with
  | none => rfl
  | some o => cases o <;> rfl

lemma applySwitch_logs (st : WfState) (sw : Option (Option String)) :
    (applySwitch st sw).logs = st.logs := by
  cases sw with
  | none => rfl
  | some o => cases o <;> rfl

lemma execStep_active (env : WorkflowEnv) (captured : Tab) (now : Nat)
    (st : WfState) (s : Step) :
    (execStep env captured now st s).browser.activeTabId = st.browser.activeTabId := by
  cases s <;> simp [execStep, applyLoadCompletion]

/-- Claim C5 (confirmed): for every step list, every switch schedule and every
assertion oracle — including oracles under which assertions resolve to false —
the engine executes every step in order (the trace extends by exactly the full
step list; a failed assertion aborts nothing) and appends exactly one
pass/fail log record per assertText step, regardless of the outcome. -/
theorem workflow_runs_all_steps (env : WorkflowEnv) (captured : Tab) (now : Nat)
    (steps : List Step) (switches : List (Option String)) (st : WfState) :
    (runWorkflowAux env captured now steps switches st).trace = st.trace ++ steps ∧
    (runWorkflowAux env captured now steps switches st).logs.length =
      (steps.filter isAssertStep).length + st.logs.length := by
  induction steps generalizing switches st with
  | nil => simp [runWorkflowAux]
  | cons s rest ih =>
    obtain ⟨ih1, ih2⟩ :=
      ih switches.tail (execStep env captured now (applySwitch st switches.head?) s)
    refine ⟨?_, ?_⟩
    · show (runWorkflowAux env captured now rest switches.tail
        (execStep env captured now (applySwitch st switches.head?) s)).trace = _
      rw [ih1]
      cases s <;> simp [execStep, applySwitch_trace]
    · show (runWorkflowAux env captured now rest switches.tail
        (execStep env captured now (applySwitch st switches.head?) s)).logs.length = _
      rw [ih2]
      cases s <;> (simp [execStep, applySwitch_logs, isAssertStep, List.filter_cons]; try omega)

/-- Claim C7 (amended): every step of a run executes strictly in order; the
navigation target and the assertion log records are fixed to the context that
was active when the run started (every appended log record carries the
captured tab's id), but the fill/click/assertText *commands* are posted to the
iframe, which shows the currently active tab — so only when no tab switch
happens mid-run (the all-`none` schedule) and the captured tab is active at
start is every delivered command targeted at the original context. -/
theorem workflow_targets_with_no_switch (env : WorkflowEnv) (captured : Tab)
    (now : Nat) (steps : List Step) (st : WfState)
    (hAct : st.browser.activeTabId = captured.id) :
    (runWorkflowAux env captured now steps (List.replicate steps.length none) st).trace =
      st.trace ++ steps ∧
    (∀ e ∈ (runWorkflowAux env captured now steps (List.replicate steps.length none) st).logs,
      e ∈ st.logs ∨ e.tabId = captured.id) ∧
    (∀ d ∈ (runWorkflowAux env captured now steps (List.replicate steps.length none) st).delivered,
      d ∈ st.delivered ∨ d.1 = captured.id) := by
  induction steps generalizing st with
  | nil =>
    refine ⟨by simp [runWorkflowAux], fun e he => Or.inl he, fun d hd => Or.inl hd⟩
  | cons s rest ih =>
    have hAct' : (execStep env captured now st s).browser.activeTabId = captured.id := by
      rw [execStep_active]; exact hAct
    obtain ⟨ih1, ih2, ih3⟩ := ih (execStep env captured now st s) hAct'
    have hrun : runWorkflowAux env captured now (s :: rest)
        (List.replicate (s :: rest).length none) st =
        runWorkflowAux env captured now rest (List.replicate rest.length none)
          (execStep env captured now st s) := by
      simp [runWorkflowAux, applySwitch, List.length_cons, List.replicate_succ]
    rw [hrun]
    refine ⟨?_, ?_, ?_⟩
    · rw [ih1]
      cases s <;> simp [execStep]
    · intro e he
      rcases ih2 e he with h | h
      · cases s with
        | assertText sel inc =>
          rcases (by simpa [execStep] using h : e = _ ∨ e ∈ st.logs) with h' | h'
          · right; rw [h']
          · left; exact h'
        | navigate f => left; simpa [execStep] using h
        | fill f => left; simpa [execStep] using h
        | click c => left; simpa [execStep] using h
      · right; exact h
    · intro d hd
      rcases ih3 d hd with h | h
      · cases s with
        | navigate f => left; simpa [execStep] using h
        | fill f =>
          rcases (by simpa [execStep] using h : d ∈ st.delivered ∨ d = _) with h' | h'
          · left; exact h'
          · right; rw [h']; exact hAct
        | click c =>
          rcases (by simpa [execStep] using h : d ∈ st.delivered ∨ d = _) with h' | h'
          · left; exact h'
          · right; rw [h']; exact hAct
        | assertText sel inc =>
          rcases (by simpa [execStep] using h : d ∈ st.delivered ∨ d = _) with h' | h'
          · left; exact h'
          · right; rw [h']; exact hAct
      · right; exact h

/-- Environment for the concrete workflow runs below: fetches return empty
markup and every assertion resolves false. -/
def sampleEnv : WorkflowEnv := ⟨fun _ => "", fun _ _ => false⟩

/-- A login tab "a" used by the concrete workflow runs. -/
def tabA : Tab := { id := "a", fixture := .login, title := "login", srcDoc := none }

/-- A search tab "b" used by the concrete workflow runs. -/
def tabB : Tab := { id := "b", fixture := .search, title := "search", srcDoc := none }

/-- Start state of the concrete workflow runs: tabs "a" and "b" open, "a"
active, nothing logged or delivered yet. -/
def wfStart : WfState :=
  { browser := { tabs := [tabA, tabB], activeTabId := "a" },
    logs := [], delivered := [], trace := [] }

/-- Claim C7 witness instantiation: a one-click run captured against tab "a"
with no mid-run switch. -/
theorem workflow_targets_with_no_switch_witness :
    (runWorkflowAux sampleEnv tabA 0 [Step.click "#x"]
        (List.replicate ([Step.click "#x"] : List Step).length none) wfStart).trace =
      wfStart.trace ++ [Step.click "#x"] ∧
    (∀ e ∈ (runWorkflowAux sampleEnv tabA 0 [Step.click "#x"]
        (List.replicate ([Step.click "#x"] : List Step).length none) wfStart).logs,
      e ∈ wfStart.logs ∨ e.tabId = tabA.id) ∧
    (∀ d ∈ (runWorkflowAux sampleEnv tabA 0 [Step.click "#x"]
        (List.replicate ([Step.click "#x"] : List Step).length none) wfStart).delivered,
      d ∈ wfStart.delivered ∨ d.1 = tabA.id) :=
  workflow_targets_with_no_switch sampleEnv tabA 0 [Step.click "#x"] wfStart rfl

/-- Claim C7 counterexample: the run is captured against tab "a", but the user
switches the active tab to "b" before the single click step executes; the
click command is delivered to context "b", not to the original target "a" —
`postToIframe` posts to the iframe, which hosts whichever tab is active. -/
theorem midrun_switch_redirects_command :
    (runWorkflowAux sampleEnv tabA 0 [Step.click "#x"] [some "b"] wfStart).delivered =
      [("b", clickMsg "#x")] ∧ tabA.id = "a" ∧ ("b" : String) ≠ "a" := by
  refine ⟨rfl, rfl, ?_⟩
  decide

/-- Claim C6 (confirmed): an `assertText` whose selector matches no element in
the target context resolves to false on both paths — the agent computes
`ok = false` (null element) and posts it on the reply port, and if no reply
arrives the 800ms timeout resolves the promise to false.  Both the agent
handler and the controller resolution are total functions: the operation
never throws to the caller. -/
theorem assertText_missing_selector_false (doc : Doc) (sel inc : String)
    (h : querySelector doc sel = none) :
    assertTextResolve (agentHandleMessage doc (assertMsg sel inc) true).2.2 = false ∧
    assertTextResolve none = false ∧
    assertTimeoutMs = 800 := by
  refine ⟨?_, rfl, rfl⟩
  simp [agentHandleMessage, agentCommandEvents, assertMsg, objGetStr, h, assertTextResolve]

/-- Claim C6 witness instantiation: asserting on selector "#status" in an
empty document. -/
theorem assertText_missing_selector_false_witness :
    querySelector [] "#status" = none ∧
    (assertTextResolve (agentHandleMessage [] (assertMsg "#status" "Welcome") true).2.2 = false ∧
      assertTextResolve none = false ∧ assertTimeoutMs = 800) :=
  ⟨rfl, assertText_missing_selector_false [] "#status" "Welcome" rfl⟩

/-- Claim C10 (confirmed): every message bearing the `agentic:command`
discriminator — whatever its command name, recognized or not — makes the agent
emit `command_received` echoing the command name and args as its first event,
before and independently of any command-specific handling. -/
theorem command_received_echo_first (doc : Doc) (msg : AgentMsg) (rp : Bool)
    (h : msg.type = "agentic:command") :
    (agentHandleMessage doc msg rp).1.head? =
      some ⟨"command_received", some (.jobj [("command", .jstr msg.command), ("args", msg.args)])⟩ := by
  simp [agentHandleMessage, h]

/-- Claim C10 witness instantiation: the unrecognized command "frobnicate" is
still acknowledged with a `command_received` echo (and, matching no handler
branch, produces nothing else). -/
theorem command_received_echo_first_witness :
    (⟨"agentic:command", "frobnicate", JVal.jnull⟩ : AgentMsg).type = "agentic:command" ∧
    (agentHandleMessage [] ⟨"agentic:command", "frobnicate", JVal.jnull⟩ false).1.head? =
      some ⟨"command_received", some (.jobj [("command", .jstr "frobnicate"), ("args", JVal.jnull)])⟩ :=
  ⟨rfl, command_received_echo_first [] ⟨"agentic:command", "frobnicate", JVal.jnull⟩ false rfl⟩

end AgenticWebsite
